import Mathlib

/-!
Verification of the dynamic tool-invocation bridge of the
`kennionblack/prompt-engineering` repository, as a shallow embedding.

The embedding covers:
* the JSON-Schema-like nodes inspected by the schema translators and the
  two translators found in the source: `createZodSchemaFromMCP`
  (identical in `MCPManager` and `MCPCLIAgent`) and the TypeScript type
  generator `generateInputType`/`schemaToTypeScript` of `MCPClient`;
* the JS-object-style tool registry built by
  `MCPManager.createMCPTools` and `FinanceBotAgent.createAllTools`;
* the HTTP MCP client (`MCPClient.sendRequest` / `callTool` /
  `initialize` / `listTools`), with the transport abstracted as the
  response it would deliver and sends recorded as a trace;
* the AI-SDK tool `execute` wrappers of `MCPManager.createMCPTools` and
  `MCPCLIAgent.createAISDKTools` (they agree on the modelled behaviour);
* the user-turn handlers `MCPCLIChatbot.handleUserInput` and
  `CLIChatbot.handleUserInput`, with the language model abstracted as an
  oracle indexed by the call number within the turn;
* `FinanceBotAgent.addMessage` / `summarizeOldMessages`;
* the `calculate` tool of the cloudflare CLI chatbot.
-/

/-- JS string `s || t`: `s` when truthy (non-empty), else `t`. -/
def jsOrS (s t : String) : String :=
  if s = "" then t else s

/-- A code point matched by the JavaScript regex class `\s`; the same
set is stripped by `String.prototype.trim`. -/
def jsWhitespace (c : Char) : Bool :=
  c.val == 9 || c.val == 10 || c.val == 11 || c.val == 12 || c.val == 13 || c.val == 32 ||
  c.val == 160 || c.val == 5760 || (8192 ≤ c.val && c.val ≤ 8202) || c.val == 8232 ||
  c.val == 8233 || c.val == 8239 || c.val == 8287 || c.val == 12288 || c.val == 65279

/-- JS `s.trim()`: strip leading and trailing whitespace. -/
def jsTrim (s : String) : String :=
  String.mk (((s.toList.dropWhile jsWhitespace).reverse.dropWhile jsWhitespace).reverse)

/-- JS `s.toLowerCase()` on the repertoire the keyword checks use. -/
def jsToLower (s : String) : String :=
  String.mk (s.toList.map Char.toLower)

/-- `SchemaNode` models any JSON value the translators may receive as a
schema node: the fields are exactly the ones the source inspects
(`type`, `properties`, `items`, `required`, `description`), each
`Option` because the provider may omit or malform it.  A JSON value that
is not an object at all is modelled as `none` at the use sites
(`Option SchemaNode`). -/
inductive SchemaNode where
  | node
      (typeTag : Option String)
      (properties : Option (List (String × SchemaNode)))
      (items : Option SchemaNode)
      (required : Option (List String))
      (descr : Option String)

/-- The `type` tag of a schema node. -/
def SchemaNode.typeTag : SchemaNode → Option String
  | .node t _ _ _ _ => t

/-- The `properties` mapping of a schema node. -/
def SchemaNode.properties : SchemaNode → Option (List (String × SchemaNode))
  | .node _ p _ _ _ => p

/-- The `items` node of a schema node. -/
def SchemaNode.items : SchemaNode → Option SchemaNode
  | .node _ _ i _ _ => i

/-- The `required` list of a schema node. -/
def SchemaNode.required : SchemaNode → Option (List String)
  | .node _ _ _ r _ => r

/-- The `description` of a schema node. -/
def SchemaNode.descr : SchemaNode → Option String
  | .node _ _ _ _ d => d

/-- The Zod schema expressions the source translators can build
(`z.string()`, `z.number()`, `z.number().int()`, `z.boolean()`,
`z.array(z.any())`, `z.object(shape)`, `.describe(d)`, `.optional()`). -/
inductive ZodSchema where
  | zString
  | zNumber
  | zNumberInt
  | zBoolean
  | zArrayAny
  | zObject (shape : List (String × ZodSchema))
  | zDescribe (inner : ZodSchema) (d : String)
  | zOptional (inner : ZodSchema)

/-- The `switch (property.type)` of `createZodSchemaFromMCP`: the base
Zod schema for one property.  Any tag other than the five recognized
scalars/array tags (including `object`, a missing tag, or garbage) falls
through to `z.string()`. -/
def zodFieldForProperty (p : SchemaNode) : ZodSchema :=
  match p.typeTag with
  | some "string" => .zString
  | some "number" => .zNumber
  | some "integer" => .zNumberInt
  | some "boolean" => .zBoolean
  | some "array" => .zArrayAny
  | _ => .zString

/-- The `if (property.description)` step of `createZodSchemaFromMCP`:
attach `.describe(d)` when a truthy (non-empty) description is
present. -/
def zodFieldDescribed (p : SchemaNode) : ZodSchema :=
  match p.descr with
  | some d => if d = "" then zodFieldForProperty p
              else ZodSchema.zDescribe (zodFieldForProperty p) d
  | none => zodFieldForProperty p

/-- The `isRequired` test of `createZodSchemaFromMCP`:
`inputSchema.required && Array.isArray(...) && required.includes(key)`. -/
def jsIsRequired (required : Option (List String)) (k : String) : Bool :=
  match required with
  | some l => l.contains k
  | none => false

/-- The full per-property translation of `createZodSchemaFromMCP`:
base schema, then `.describe` when a non-empty description is present,
then `.optional()` unless the key is listed in `required`. -/
def zodFieldFull (required : Option (List String)) (k : String) (p : SchemaNode) : ZodSchema :=
  if jsIsRequired required k then zodFieldDescribed p
  else ZodSchema.zOptional (zodFieldDescribed p)

/-- `MCPManager.createZodSchemaFromMCP` (the `MCPCLIAgent` copy is
line-for-line the same logic): a falsy input or one whose `type` is not
`object` yields `z.object({})`; otherwise each entry of `properties`
(when present) is translated by `zodFieldFull`.  Note the function never
recurses into nested property nodes. -/
def createZodSchemaFromMCP : Option SchemaNode → ZodSchema
  | none => .zObject []
  | some s =>
    match s.typeTag with
    | some "object" =>
      match s.properties with
      | some ps => .zObject (ps.map fun kp => (kp.1, zodFieldFull s.required kp.1 kp.2))
      | none => .zObject []
    | _ => .zObject []

/-- The `description ? "\n  /** d */\n  " : ""` prefix of
`MCPClient.generateInputType`. -/
def descComment (p : SchemaNode) : String :=
  match p.descr with
  | some d => if d = "" then "" else "\n  /** " ++ d ++ " */\n  "
  | none => ""

mutual

/-- `MCPClient.schemaToTypeScript`: converts a JSON-Schema node into a
TypeScript type expression, recursing into `items` for arrays and into
`properties` (through the input-type body) for objects; `none` stands
for a null or non-object schema value. `number` and `integer` share the
`number` case; any unrecognized tag yields `any`. -/
def schemaToTypeScript : SchemaNode → String
  | .node t props items req _ =>
    match t with
    | some "string" => "string"
    | some "number" => "number"
    | some "integer" => "number"
    | some "boolean" => "boolean"
    | some "array" =>
      (match items with
       | some it => schemaToTypeScript it
       | none => "any") ++ "[]"
    | some "object" =>
      match props with
      | some ps =>
        let tps := typeProps ps (req.getD [])
        if tps.isEmpty then "\x7b\x7d"
        else "\x7b\n  " ++ String.intercalate ";\n  " tps ++ "\n\x7d"
      | none => "Record<string, any>"
    | _ => "any"

/-- The property lines built by `MCPClient.generateInputType`: for each
property, its description comment, its name, a `?` marker exactly when
the name is absent from `required`, and the recursively translated
type. -/
def typeProps : List (String × SchemaNode) → List String → List String
  | [], _ => []
  | (name, s) :: rest, req =>
    (descComment s ++ name ++ (if req.contains name then "" else "?") ++ ": "
        ++ schemaToTypeScript s) :: typeProps rest req

end

/-- `MCPClient.generateInputType`: entry point used when generating type
definitions for a tool; a missing or non-object `inputSchema` yields
`any`, otherwise the object body is built from `properties` (defaulted
to empty) and `required` (defaulted to empty). -/
def generateInputType (inputSchema : Option SchemaNode) : String :=
  match inputSchema with
  | none => "any"
  | some s =>
    if s.typeTag = some "object" then
      let tps := typeProps (s.properties.getD []) (s.required.getD [])
      if tps.isEmpty then "\x7b\x7d"
      else "\x7b\n  " ++ String.intercalate ";\n  " tps ++ "\n\x7d"
    else "any"

/-! ## Tool registry (JS-object semantics)

`MCPManager.createMCPTools` fills a plain JS object with
`tools[mcpTool.name] = tool(...)`, and `FinanceBotAgent.createAllTools`
merges two such objects with `Object.assign`.  JS property assignment
updates an existing key in place (keeping its position) and otherwise
appends; no uniqueness check and no error on collision. -/

/-- A registered tool as stored in the registry objects: the descriptor
data the dispatch uses (description and translated signature). -/
structure RegisteredTool where
  description : String
  inputSchema : ZodSchema

/-- One entry of `availableTools`: an MCP tool descriptor as delivered
by `listTools`. -/
structure MCPToolInfo where
  name : String
  description : String
  inputSchema : Option SchemaNode

/-- JS `obj[k] = v`: update the existing key in place (a JS object
holds each key at most once, so replacing the first occurrence is the
update), else append the new property. -/
def objSet : List (String × α) → String → α → List (String × α)
  | [], k, v => [(k, v)]
  | p :: rest, k, v => if p.1 == k then (k, v) :: rest else p :: objSet rest k v

/-- JS `obj[k]`: the stored value, if any. -/
def objGet (m : List (String × α)) (k : String) : Option α :=
  (m.find? (fun p => p.1 == k)).map (·.2)

/-- JS `Object.assign(target, source)`: assign every source entry, in
order, into the target. -/
def objAssign (target source : List (String × α)) : List (String × α) :=
  source.foldl (fun t p => objSet t p.1 p.2) target

/-- The value the last assignment of `k` in `s` would store. -/
def lastVal? (s : List (String × α)) (k : String) : Option α :=
  (s.reverse.find? (fun p => p.1 == k)).map (·.2)

/-- The registry object built by `MCPManager.createMCPTools`: one
`tools[name] = ...` assignment per available tool, each carrying the
descriptor's description and its translated Zod schema. -/
def createMCPTools (avail : List MCPToolInfo) : List (String × RegisteredTool) :=
  avail.foldl
    (fun tools t => objSet tools t.name ⟨t.description, createZodSchemaFromMCP t.inputSchema⟩) []

/-- `FinanceBotAgent.createAllTools`: start from an empty object, then
`Object.assign` the built-in tools and then the MCP tools. -/
def createAllTools (builtin mcp : List (String × RegisteredTool)) : List (String × RegisteredTool) :=
  objAssign (objAssign [] builtin) mcp

/-! ## The HTTP MCP client (`MCPClient`)

The transport is abstracted as the `fetch` response the server would
deliver for the request; `sendRequest` turns a non-ok response or an
error envelope into a thrown exception (`Except.error`). -/

/-- The decoded JSON-RPC response body: an optional error envelope and
an opaque result payload. -/
structure MCPResponseBody where
  err : Option String
  result : String

/-- The outcome of the `fetch` in `sendRequest`: HTTP status and body. -/
structure HttpResponse where
  ok : Bool
  status : Nat
  body : MCPResponseBody

/-- `MCPClient.sendRequest`: throws (`Except.error`) on a non-ok HTTP
status and on an MCP error envelope, otherwise returns the result. -/
def sendRequest (resp : HttpResponse) : Except String String :=
  if resp.ok then
    match resp.body.err with
    | some msg => .error ("MCP Error: " ++ msg)
    | none => .ok resp.body.result
  else .error ("HTTP error! status: " ++ toString resp.status)

/-- `MCPClient.callTool` (the session already initialized): it simply
forwards the result of `sendRequest "tools/call"`, with no catch — a
transport failure propagates as an exception. -/
def clientCallTool (resp : HttpResponse) : Except String String :=
  sendRequest resp

/-- The per-tool wrapper built by `MCPClient.generateTypeScriptAPI`: it
catches a `callTool` failure only to rethrow it as a new
`Tool '<name>' failed: ...` error. -/
def generatedAPICall (toolName : String) (resp : HttpResponse) : Except String String :=
  match clientCallTool resp with
  | .ok r => .ok r
  | .error e => .error ("Tool \x27" ++ toolName ++ "\x27 failed: " ++ e)

/-- The `isInitialized` flag of an `MCPClient` session. -/
structure ClientState where
  isInitialized : Bool

/-- `MCPClient.initialize` on the success path, with each request send
recorded as `(flag at the moment of sending, method)`: it always sends
the `initialize` request and the `notifications/initialized`
notification — there is no already-initialized guard — and only then
sets the flag. -/
def clientInitialize (st : ClientState) : List (Bool × String) × ClientState :=
  ([(st.isInitialized, "initialize"), (st.isInitialized, "notifications/initialized")],
   ⟨true⟩)

/-- `MCPClient.listTools` (success path, sends only): when the session
is not initialized it first runs the handshake, then sends
`tools/list`. -/
def clientListTools (st : ClientState) : List (Bool × String) × ClientState :=
  if st.isInitialized then ([(st.isInitialized, "tools/list")], st)
  else
    let (ms, st') := clientInitialize st
    (ms ++ [(st'.isInitialized, "tools/list")], st')

/-- `MCPClient.callTool` (success path, sends only): when the session
is not initialized it first runs the handshake, then sends
`tools/call`. -/
def clientCallToolOp (st : ClientState) : List (Bool × String) × ClientState :=
  if st.isInitialized then ([(st.isInitialized, "tools/call")], st)
  else
    let (ms, st') := clientInitialize st
    (ms ++ [(st'.isInitialized, "tools/call")], st')

/-! ## The AI-SDK tool `execute` wrappers

`MCPManager.createMCPTools` and `MCPCLIAgent.createAISDKTools` register
each MCP tool with an `execute` that calls the MCP client and folds the
response content into one string; every exception is caught and turned
into an `Error executing ...` string, so `execute` always returns a
plain string. -/

/-- One entry of an MCP `callTool` response's `content` list: its
`type` tag and its `text` payload (non-text chunks carry other fields;
only `type` decides whether a chunk survives). -/
structure ContentItem where
  itemType : String
  text : String
deriving DecidableEq

/-- An MCP `callTool` response as the wrappers inspect it: the
`content` list may be absent. -/
structure CallToolResponse where
  content : Option (List ContentItem)
deriving DecidableEq

/-- The content folding in the `execute` wrappers: when `content` is
present and non-empty, keep only the chunks whose `type` is `text`, in
order, and join their `text` fields with a newline; otherwise return
the fixed placeholder. -/
def mcpContentToString (content? : Option (List ContentItem)) : String :=
  match content? with
  | some content =>
    if 0 < content.length then
      String.intercalate "\n" ((content.filter (fun i => i.itemType == "text")).map (fun i => i.text))
    else "Tool executed successfully but returned no content."
  | none => "Tool executed successfully but returned no content."

/-- The whole `execute` wrapper: a successful `callTool` response is
folded by `mcpContentToString`; a thrown error (whose message is `none`
when the thrown value is not an `Error`) is captured into an
`Error executing <name>: <message>` string.  The result type is plain
`String`: the wrapper never rethrows. -/
def mcpToolExecute (toolName : String) (outcome : Except (Option String) CallToolResponse) :
    String :=
  match outcome with
  | .ok resp => mcpContentToString resp.content
  | .error m? => "Error executing " ++ toolName ++ ": " ++ m?.getD "Unknown error"

/-! ## The user-turn handlers

The language model is abstracted as an oracle from the call number
within the turn (0 for the first `generateResponse`, 1 for the
synthesis round trip) to either a thrown error message or a response. -/

/-- A tool-call intent emitted by the model. -/
structure ToolCallIntent where
  toolCallId : String
  toolName : String
deriving DecidableEq

/-- A tool result as delivered alongside the model response. -/
structure ToolResultEntry where
  toolCallId : String
  output : String
deriving DecidableEq

/-- A `generateText` result as the handlers inspect it. -/
structure ModelResponse where
  text : String
  toolCalls : List ToolCallIntent
  toolResults : List ToolResultEntry
deriving DecidableEq

/-- A transcript message; the handlers only ever append `user` and
`assistant` roles. -/
inductive Msg where
  | user (content : String)
  | assistant (content : String)
deriving DecidableEq

/-- JS `messages.pop()` guarded by `messages.length > 0`: drop the last
element. -/
def listPop (l : List α) : List α := l.dropLast

/-- What a turn leaves behind: the transcript, the string surfaced to
the user (the `console.log`/`console.error` payload), and how many
model calls were made. -/
structure ChatOutcome where
  messages : List Msg
  displayed : String
  modelCalls : Nat
deriving DecidableEq

/-- The `<tool> returned: <output>` lines of
`MCPCLIChatbot.handleUserInput`: for each intent, the matching result's
output (falsy output, and a missing result, both become `No result`),
joined with newlines. -/
def toolResultsText (r : ModelResponse) : String :=
  String.intercalate "\n" (r.toolCalls.map fun c =>
    c.toolName ++ " returned: " ++
      (match r.toolResults.find? (fun t => t.toolCallId == c.toolCallId) with
       | some t => jsOrS t.output "No result"
       | none => "No result"))

/-- The synthetic user message fed back before the synthesis round
trip in `MCPCLIChatbot.handleUserInput`. -/
def synthesisPrompt (r : ModelResponse) : String :=
  "Based on the tool results:\n" ++ toolResultsText r
    ++ "\n\nPlease provide a natural language response to my original question."

/-- `MCPCLIChatbot.handleUserInput`: append the user turn; run the
model; when the response carries tool calls but no (non-whitespace)
text, append the empty assistant turn and the synthetic tool-results
user turn, run the model again and surface that second text; otherwise
surface the first text.  Any thrown error is caught, surfaced as
`Error: ...`, and the last message is popped. -/
def mcpHandleUserInput (oracle : Nat → Except String ModelResponse)
    (msgs : List Msg) (input : String) : ChatOutcome :=
  let m1 := msgs ++ [Msg.user input]
  match oracle 0 with
  | .error e => ⟨listPop m1, "Error: " ++ e, 1⟩
  | .ok r1 =>
    if 0 < r1.toolCalls.length ∧ jsTrim r1.text = "" then
      let m2 := m1 ++ [Msg.assistant (jsOrS r1.text "")]
      let m3 := m2 ++ [Msg.user (synthesisPrompt r1)]
      match oracle 1 with
      | .error e => ⟨listPop m3, "Error: " ++ e, 2⟩
      | .ok r2 =>
        ⟨m3 ++ [Msg.assistant r2.text], jsOrS r2.text "No response generated", 2⟩
    else
      ⟨m1 ++ [Msg.assistant (jsOrS r1.text "")], jsOrS r1.text "No response generated", 1⟩

/-- `CLIChatbot.handleUserInput` (week4 typescript-cli-chatbot): append
the user turn; run the model once; append the assistant turn; surface
`result.text` when truthy and otherwise the raw
`result.toolResults[0].output`.  When both the text and the tool
results are empty, the indexing throws and the catch pops the last
message.  There is no second model call. -/
def cliHandleUserInput (oracle : Nat → Except String ModelResponse)
    (msgs : List Msg) (input : String) : ChatOutcome :=
  let m1 := msgs ++ [Msg.user input]
  match oracle 0 with
  | .error e => ⟨listPop m1, "Error: " ++ e, 1⟩
  | .ok r =>
    let m2 := m1 ++ [Msg.assistant r.text]
    if r.text = "" then
      match r.toolResults with
      | t :: _ => ⟨m2, t.output, 1⟩
      | [] =>
        ⟨listPop m2,
         "Error: Cannot read properties of undefined (reading \x27output\x27)", 1⟩
    else ⟨m2, r.text, 1⟩

/-! ## FinanceBot transcript management -/

/-- A FinanceBot transcript message.  `content` is the string content;
the `typeof msg.content === 'string'` check of the source always holds
for the modelled messages, and JS truthiness of the content is the
`content ≠ ""` test. -/
structure FinMsg where
  role : String
  content : String
deriving DecidableEq

/-- `FinanceBotAgent`: its message list and the side field holding the
summary of evicted turns. -/
structure AgentState where
  messages : List FinMsg
  conversationContext : String
deriving DecidableEq

/-- Is `pat` a prefix of `l`? -/
def startsWithList : List Char → List Char → Bool
  | [], _ => true
  | _ :: _, [] => false
  | a :: as, b :: bs => a == b && startsWithList as bs

/-- Does `l` contain `pat` as a contiguous run? -/
def hasSubstrList (pat : List Char) : List Char → Bool
  | [] => startsWithList pat []
  | c :: rest => startsWithList pat (c :: rest) || hasSubstrList pat rest

/-- JS `s.includes(pat)`. -/
def strIncludes (s pat : String) : Bool :=
  hasSubstrList pat.toList s.toList

/-- Add an element to a JS `Set` modelled as an insertion-ordered list
without duplicates. -/
def addUnique (l : List String) (x : String) : List String :=
  if l.contains x then l else l ++ [x]

/-- The four keyword checks of `summarizeOldMessages`, applied in
source order to one lower-cased message content. -/
def addTopicsOf (acc : List String) (c : String) : List String :=
  let acc := if strIncludes c "stock" || strIncludes c "investment" then
      addUnique acc "investments" else acc
  let acc := if strIncludes c "budget" || strIncludes c "expense" then
      addUnique acc "budgeting" else acc
  let acc := if strIncludes c "goal" || strIncludes c "plan" then
      addUnique acc "financial_planning" else acc
  if strIncludes c "risk" || strIncludes c "diversif" then
    addUnique acc "risk_management" else acc

/-- `FinanceBotAgent.summarizeOldMessages`: over `messages.slice(0,-8)`
(everything but the last 8), collect topic tags by keyword presence in
the lower-cased contents (skipping falsy contents), and render them as
a `Previous conversation covered: ...` string. -/
def summarizeOldMessages (msgs : List FinMsg) : String :=
  let old := msgs.take (msgs.length - 8)
  let topics := old.foldl
    (fun acc m => if m.content = "" then acc else addTopicsOf acc (jsToLower m.content)) []
  "Previous conversation covered: " ++ String.intercalate ", " topics

/-- `FinanceBotAgent.addMessage`: push the message; when the count then
exceeds 10, store the summary of everything but the last 8 into
`conversationContext` and truncate `messages` to its last 8 entries
(`slice(-8)`).  The summary never enters `messages`. -/
def addMessage (st : AgentState) (m : FinMsg) : AgentState :=
  let msgs := st.messages ++ [m]
  if 10 < msgs.length then
    { messages := msgs.drop (msgs.length - 8),
      conversationContext := summarizeOldMessages msgs }
  else { st with messages := msgs }

/-! ## The `calculate` tool (week4 cloudflare-cli-chatbot) -/

/-- A character matched by the guard class `[0-9+\-*/().\s]`. -/
def allowedChar (c : Char) : Bool :=
  c.isDigit || c == '+' || c == '-' || c == '*' || c == '/' || c == '(' || c == ')' ||
  c == '.' || jsWhitespace c

/-- The guard regex `^[0-9+\-*/().\s]+$`: at least one character, all
of them from the allowed class. -/
def exprAllowed (e : String) : Bool :=
  decide (0 < e.length) && e.toList.all allowedChar

/-- The `Error calculating "<expr>": <msg>` string of the catch. -/
def calcError (expr msg : String) : String :=
  "Error calculating \"" ++ expr ++ "\": " ++ msg

/-- The `calculate` tool's `execute`.  The dynamic evaluation
(`new Function`) is abstracted as `evalFn`, which may throw
(`Except.error`, with `none` for a non-`Error` thrown value).  A guard
failure throws `Invalid characters in expression` before `evalFn` is
ever consulted; the shared catch converts every throw into an error
string.  The second component records whether `evalFn` was invoked. -/
def calculate (evalFn : String → Except (Option String) String) (expression : String) :
    String × Bool :=
  if exprAllowed expression then
    match evalFn expression with
    | .ok r => (expression ++ " = " ++ r, true)
    | .error m? => (calcError expression (m?.getD "Unknown error"), true)
  else (calcError expression "Invalid characters in expression", false)

/-! ## Concrete inputs used by the witnesses and counterexamples -/

/-- A tool schema whose property `cfg` is itself an object schema with
its own property and required list. -/
def c3NestedA : SchemaNode :=
  .node (some "object")
    (some [("cfg",
      .node (some "object") (some [("x", .node (some "string") none none none none)])
        none (some ["x"]) none)])
    none (some ["cfg"]) none

/-- Like `c3NestedA` but the nested object schema is empty: the two
differ only below the nesting the Zod translator never enters. -/
def c3NestedB : SchemaNode :=
  .node (some "object") (some [("cfg", .node (some "object") (some []) none none none)])
    none (some ["cfg"]) none

/-- An array-typed property whose `items` schema is a number. -/
def c3ArrayOfNumbers : SchemaNode :=
  .node (some "array") none (some (.node (some "number") none none none none)) none none

/-- The descriptor registered for `lookup` by the first provider. -/
def lookupA : RegisteredTool := ⟨"first provider", ZodSchema.zObject []⟩

/-- The descriptor registered for `lookup` by the second provider. -/
def lookupB : RegisteredTool := ⟨"second provider", ZodSchema.zString⟩

/-- A model response carrying one tool-call intent, its result, and no
natural-language text. -/
def c6R1 : ModelResponse :=
  ⟨"", [⟨"call-1", "getCurrentTime"⟩], [⟨"call-1", "2 + 2 = 4"⟩]⟩

/-- The synthesis response of the second round trip. -/
def c6R2 : ModelResponse := ⟨"The answer is 4.", [], []⟩

/-- A model oracle that always answers with `c6R1`. -/
def c6Oracle : Nat → Except String ModelResponse := fun _ => .ok c6R1

/-- A model oracle answering `c6R1` on the first call and `c6R2` on the
synthesis call. -/
def c6SynthOracle : Nat → Except String ModelResponse := fun n =>
  if n = 0 then .ok c6R1 else .ok c6R2

/-- A model oracle whose second (synthesis) call fails. -/
def c7Oracle : Nat → Except String ModelResponse := fun n =>
  if n = 0 then .ok c6R1 else .error "model unavailable"

/-- A model oracle whose first call already fails. -/
def c7FailOracle : Nat → Except String ModelResponse := fun _ => .error "ECONNREFUSED"

/-- A FinanceBot state holding exactly ten plain messages. -/
def c8Start : AgentState :=
  ⟨[⟨"user", "m1"⟩, ⟨"assistant", "m2"⟩, ⟨"user", "m3"⟩, ⟨"assistant", "m4"⟩,
    ⟨"user", "m5"⟩, ⟨"assistant", "m6"⟩, ⟨"user", "m7"⟩, ⟨"assistant", "m8"⟩,
    ⟨"user", "m9"⟩, ⟨"assistant", "m10"⟩], ""⟩

/-- The eleventh message pushed in the C8 witness. -/
def c8NewMsg : FinMsg := ⟨"user", "how should I budget?"⟩

/-- A provider result with a non-text chunk between two text chunks. -/
def c9ContentA : List ContentItem :=
  [⟨"text", "alpha"⟩, ⟨"image", "base64data"⟩, ⟨"text", "beta"⟩]

/-- The same provider result without the non-text chunk. -/
def c9ContentB : List ContentItem := [⟨"text", "alpha"⟩, ⟨"text", "beta"⟩]

/-! # Theorems -/

/-- C2: the schema translation `createZodSchemaFromMCP` is total (a
result exists for every input, and the function is a plain Lean
function, so it cannot throw); an absent or non-object top-level schema
maps to the empty-object signature `z.object({})`; and a property whose
`type` tag is not one of the five recognized tags maps to the
permissive free-form `z.string()` field. -/
theorem c2_schema_translation_total_and_permissive :
    (∀ s? : Option SchemaNode, ∃ r : ZodSchema, createZodSchemaFromMCP s? = r) ∧
    createZodSchemaFromMCP none = ZodSchema.zObject [] ∧
    (∀ t props items req d, t ≠ some "object" →
      createZodSchemaFromMCP (some (SchemaNode.node t props items req d))
        = ZodSchema.zObject []) ∧
    (∀ p : SchemaNode,
      p.typeTag ∉ [some "string", some "number", some "integer", some "boolean", some "array"] →
      zodFieldForProperty p = ZodSchema.zString) := by
  refine ⟨fun s? => ⟨_, rfl⟩, rfl, ?_, ?_⟩
  · intro t props items req d h
    unfold createZodSchemaFromMCP
    simp only [SchemaNode.typeTag, SchemaNode.properties, SchemaNode.required]
  · intro p h
    unfold zodFieldForProperty
    split <;> simp_all

/-- C2 witness: the translation at a concrete malformed schema (an
unrecognized top-level tag) and at a concrete property with an
unrecognized scalar tag. -/
theorem c2_witness :
    createZodSchemaFromMCP (some (SchemaNode.node (some "banana") none none none none))
        = ZodSchema.zObject []
      ∧ zodFieldForProperty (SchemaNode.node (some "banana") none none none none)
        = ZodSchema.zString :=
  ⟨c2_schema_translation_total_and_permissive.2.2.1 (some "banana") none none none none
      (by decide),
   c2_schema_translation_total_and_permissive.2.2.2
      (SchemaNode.node (some "banana") none none none none) (by decide)⟩

/-- C3 counterexample: the Zod translation used to register MCP tools
does not recurse into nested nodes.  The object-typed property `cfg` of
`c3NestedA` is collapsed to the flat permissive `z.string()`, and a
schema differing only inside that nested node translates to the very
same result, so the nested object's own properties are not translated. -/
theorem c3_counterexample :
    createZodSchemaFromMCP (some c3NestedA) = ZodSchema.zObject [("cfg", ZodSchema.zString)] ∧
    createZodSchemaFromMCP (some c3NestedB) = createZodSchemaFromMCP (some c3NestedA) :=
  ⟨rfl, rfl⟩

/-- C3 amended: the recursion the claim describes is real only in the
TypeScript type generator of `MCPClient`: `schemaToTypeScript` maps an
array node to its recursively translated `items` type suffixed `[]`,
routes an object node with properties through `generateInputType`, and
each property line recursively translates the property and carries a
`?` marker exactly when the name is absent from `required`.  The Zod
translators (`createZodSchemaFromMCP` in `MCPManager`/`MCPCLIAgent`)
instead collapse a nested object-typed property to `z.string()` and
translate every property non-recursively through `zodFieldFull`, which
still marks a property absent from `required` as optional. -/
theorem c3_amended_recursion :
    (∀ (props : Option (List (String × SchemaNode))) (it : SchemaNode)
        (req : Option (List String)) (d : Option String),
      schemaToTypeScript (.node (some "array") props (some it) req d)
        = schemaToTypeScript it ++ "[]") ∧
    (∀ (ps : List (String × SchemaNode)) (items : Option SchemaNode)
        (req : Option (List String)) (d : Option String),
      schemaToTypeScript (.node (some "object") (some ps) items req d)
        = generateInputType (some (.node (some "object") (some ps) items req d))) ∧
    (∀ (ps : List (String × SchemaNode)) (req : List String),
      typeProps ps req = ps.map fun kp =>
        descComment kp.2 ++ kp.1 ++ (if req.contains kp.1 then "" else "?") ++ ": "
          ++ schemaToTypeScript kp.2) ∧
    (∀ (ps' : Option (List (String × SchemaNode))) (it' : Option SchemaNode)
        (req' : Option (List String)) (d' : Option String),
      zodFieldForProperty (.node (some "object") ps' it' req' d') = ZodSchema.zString) ∧
    (∀ (ps : List (String × SchemaNode)) (items : Option SchemaNode)
        (req : Option (List String)) (d : Option String),
      createZodSchemaFromMCP (some (.node (some "object") (some ps) items req d))
        = ZodSchema.zObject (ps.map fun kp => (kp.1, zodFieldFull req kp.1 kp.2))) ∧
    (∀ (req : Option (List String)) (k : String) (p : SchemaNode),
      jsIsRequired req k = false →
      zodFieldFull req k p = ZodSchema.zOptional (zodFieldDescribed p)) := by
  refine ⟨?_, ?_, ?_, ?_, ?_, ?_⟩
  · intro props it req d
    simp [schemaToTypeScript]
  · intro ps items req d
    simp [schemaToTypeScript, generateInputType, SchemaNode.typeTag, SchemaNode.properties,
      SchemaNode.required]
  · intro ps req
    induction ps with
    | nil => rfl
    | cons kp rest ih => cases kp; simp [typeProps, ih]
  · intro ps' it' req' d'
    rfl
  · intro ps items req d
    rfl
  · intro req k p h
    simp [zodFieldFull, h]

/-- C3 amended witness: the array item type of `c3ArrayOfNumbers` is
recursively translated by the TypeScript generator, and a concrete
non-required property is made optional by the Zod translator. -/
theorem c3_witness :
    schemaToTypeScript c3ArrayOfNumbers
        = schemaToTypeScript (.node (some "number") none none none none) ++ "[]" ∧
    zodFieldFull (some ["other"]) "city" (SchemaNode.node (some "string") none none none none)
        = ZodSchema.zOptional
            (zodFieldDescribed (SchemaNode.node (some "string") none none none none)) :=
  ⟨c3_amended_recursion.1 none (.node (some "number") none none none none) none none,
   c3_amended_recursion.2.2.2.2.2 (some ["other"]) "city"
      (SchemaNode.node (some "string") none none none none) (by decide)⟩

/-- Resolving a key right after assigning it returns the assigned
value. -/
theorem objGet_objSet_self (m : List (String × α)) (k : String) (v : α) :
    objGet (objSet m k v) k = some v := by
  induction m with
  | nil => simp [objSet, objGet]
  | cons p rest ih =>
    by_cases hp : p.1 == k
    · simp [objSet, objGet, hp]
    · simp only [objSet, hp, Bool.false_eq_true, if_false]
      simpa [objGet, List.find?_cons, hp] using ih

/-- Assigning one key leaves every other key's resolution unchanged. -/
theorem objGet_objSet_ne (m : List (String × α)) (k k' : String) (v : α) (h : k' ≠ k) :
    objGet (objSet m k' v) k = objGet m k := by
  induction m with
  | nil => simp [objSet, objGet, h]
  | cons p rest ih =>
    by_cases hp : p.1 == k'
    · have hpk : (p.1 == k) = false := by
        have : p.1 = k' := by simpa using hp
        simp [this, h]
      simp [objSet, objGet, hp, hpk, h]
    · simp only [objSet, hp, Bool.false_eq_true, if_false]
      by_cases hk : p.1 == k
      · simp [objGet, hk]
      · simpa [objGet, List.find?_cons, hk] using ih

/-- The last-assignment view of a JS object built by a sequence of
assignments: `Object.assign`-ing `s` into `t` resolves `k` to the last
value `s` assigns to `k`, falling back to `t`. -/
theorem objGet_objAssign (t s : List (String × α)) (k : String) :
    objGet (objAssign t s) k
      = match lastVal? s k with
        | some v => some v
        | none => objGet t k := by
  induction s generalizing t with
  | nil => simp [objAssign, lastVal?]
  | cons p rest ih =>
    have step : objAssign t (p :: rest) = objAssign (objSet t p.1 p.2) rest := rfl
    rw [step, ih]
    have hl : lastVal? (p :: rest) k
        = match lastVal? rest k with
          | some v => some v
          | none => if p.1 == k then some p.2 else none := by
      simp only [lastVal?, List.reverse_cons, List.find?_append]
      cases hr : List.find? (fun q => q.1 == k) rest.reverse with
      | some q => simp [hr, Option.or]
      | none =>
        simp only [hr, Option.or, Option.map_none]
        by_cases hp : p.1 == k <;> simp [List.find?, hp]
    rw [hl]
    cases hr : lastVal? rest k with
    | some v => simp
    | none =>
      by_cases hp : p.1 == k
      · have : p.1 = k := by simpa using hp
        subst this
        simp [hp, objGet_objSet_self]
      · have hne : p.1 ≠ k := by simpa using hp
        simp [hp, objGet_objSet_ne t k p.1 p.2 hne]

/-- C4: registration is last-write-wins.  Re-assigning a tool name
silently replaces the earlier descriptor (`objSet` is total: no error,
no uniqueness enforcement), resolving a name after two registrations
under it returns the second registration, and `createAllTools` resolves
a name registered by the MCP provider to that provider's last
registration under the name, overriding any built-in tool.
`createMCPTools` itself is exactly this assignment sequence over the
derived descriptors. -/
theorem c4_last_write_wins :
    (∀ (m : List (String × RegisteredTool)) (k : String) (v₁ v₂ : RegisteredTool),
      objGet (objSet (objSet m k v₁) k v₂) k = some v₂) ∧
    (∀ (builtin mcp : List (String × RegisteredTool)) (k : String) (v : RegisteredTool),
      lastVal? mcp k = some v → objGet (createAllTools builtin mcp) k = some v) ∧
    (∀ avail : List MCPToolInfo,
      createMCPTools avail
        = objAssign [] (avail.map fun t =>
            (t.name, ⟨t.description, createZodSchemaFromMCP t.inputSchema⟩))) := by
  refine ⟨?_, ?_, ?_⟩
  · intro m k v₁ v₂
    exact objGet_objSet_self (objSet m k v₁) k v₂
  · intro builtin mcp k v h
    unfold createAllTools
    rw [objGet_objAssign, h]
  · intro avail
    unfold createMCPTools objAssign
    rw [List.foldl_map]

/-- C4 witness: two providers register `lookup`; resolving `lookup`
afterwards returns the second provider's descriptor. -/
theorem c4_witness :
    objGet (createAllTools [("lookup", lookupA)] [("lookup", lookupB)]) "lookup"
      = some lookupB :=
  c4_last_write_wins.2.1 [("lookup", lookupA)] [("lookup", lookupB)] "lookup" lookupB rfl

/-- C5 counterexample: `initialize()` is not guarded by the
`isInitialized` flag.  Calling it a second time on an
already-initialized session re-sends the complete handshake exchange
(the `initialize` request and the `initialized` notification), so the
second call is not free of duplicate handshake side effects. -/
theorem c5_counterexample :
    (clientInitialize (clientInitialize ⟨false⟩).2).1
        = [(true, "initialize"), (true, "notifications/initialized")] ∧
    (clientInitialize (clientInitialize ⟨false⟩).2).1 ≠ [] := by
  refine ⟨rfl, ?_⟩
  rw [show (clientInitialize (clientInitialize ⟨false⟩).2).1
      = [(true, "initialize"), (true, "notifications/initialized")] from rfl]
  simp

/-- C5 amended: `initialize()` always re-runs the handshake — a repeat
call sends the two handshake messages again (though it raises no error
and leaves the session initialized) — while the flag-guard half of the
claim holds: `listTools` and `callTool` never send their request while
`isInitialized` is false, because they transparently run the handshake
(which sets the flag) first. -/
theorem c5_amended_guard_without_idempotence :
    (∀ st : ClientState, (clientInitialize st).2 = ⟨true⟩ ∧
      (clientInitialize st).1
        = [(st.isInitialized, "initialize"), (st.isInitialized, "notifications/initialized")]) ∧
    (∀ (st : ClientState) (p : Bool × String), p ∈ (clientListTools st).1 →
      p.2 = "tools/list" → p.1 = true) ∧
    (∀ (st : ClientState) (p : Bool × String), p ∈ (clientCallToolOp st).1 →
      p.2 = "tools/call" → p.1 = true) := by
  refine ⟨fun st => ⟨rfl, rfl⟩, ?_, ?_⟩
  · rintro ⟨b⟩ p hp hm
    cases b
    · simp [clientListTools, clientInitialize] at hp
      rcases hp with h | h | h <;> subst h <;> simp_all
    · simp [clientListTools] at hp
      subst hp
      rfl
  · rintro ⟨b⟩ p hp hm
    cases b
    · simp [clientCallToolOp, clientInitialize] at hp
      rcases hp with h | h | h <;> subst h <;> simp_all
    · simp [clientCallToolOp] at hp
      subst hp
      rfl

/-- C5 witness: from an uninitialized session, the `tools/list` send of
`listTools` happens with the initialized flag already true, and a
repeat `initialize` still ends initialized. -/
theorem c5_witness :
    ((true, "tools/list") ∈ (clientListTools ⟨false⟩).1 ∧
      ((true, "tools/list") : Bool × String).1 = true) ∧
    (clientInitialize ⟨true⟩).2 = ⟨true⟩ :=
  ⟨⟨by decide,
    c5_amended_guard_without_idempotence.2.1 ⟨false⟩ (true, "tools/list") (by decide) rfl⟩,
   (c5_amended_guard_without_idempotence.1 ⟨true⟩).1⟩

/-- C1 counterexample: `MCPClient.callTool` does not capture execution
failures.  On a failing transport (a non-ok HTTP response) it
propagates a thrown exception rather than returning an
error-description result, and the wrapper that
`generateTypeScriptAPI` builds around it rethrows instead of
capturing. -/
theorem c1_counterexample :
    clientCallTool ⟨false, 500, ⟨none, ""⟩⟩
        = Except.error "HTTP error! status: 500" ∧
    generatedAPICall "get_stock_price" ⟨false, 500, ⟨none, ""⟩⟩
        = Except.error "Tool \x27get_stock_price\x27 failed: HTTP error! status: 500" :=
  ⟨rfl, rfl⟩

/-- C1 amended: in the AI-SDK dispatchers (`MCPManager.createMCPTools`,
`MCPCLIAgent.createAISDKTools`) the registered tool's `execute` is
total and captures every thrown failure into an
`Error executing <name>: <message>` string result, so a failing tool
never aborts the enclosing dispatch round there; the Cloudflare
`MCPClient.callTool`, by contrast, propagates a transport failure as an
exception. -/
theorem c1_amended_execute_captures :
    (∀ (name : String) (m? : Option String),
      mcpToolExecute name (.error m?)
        = "Error executing " ++ name ++ ": " ++ m?.getD "Unknown error") ∧
    (∀ (name : String) (outcome : Except (Option String) CallToolResponse),
      ∃ s : String, mcpToolExecute name outcome = s) ∧
    (∀ resp : HttpResponse, resp.ok = false →
      clientCallTool resp = Except.error ("HTTP error! status: " ++ toString resp.status)) := by
  refine ⟨fun name m? => rfl, fun name outcome => ⟨_, rfl⟩, ?_⟩
  intro resp h
  simp [clientCallTool, sendRequest, h]

/-- C1 witness: the capture equation at a concrete tool and failure,
and the client-side throw at a concrete failing transport. -/
theorem c1_witness :
    mcpToolExecute "get_stock_price" (Except.error (some "fetch failed"))
        = "Error executing " ++ "get_stock_price" ++ ": "
            ++ (some "fetch failed").getD "Unknown error" ∧
    clientCallTool ⟨false, 503, ⟨none, ""⟩⟩
        = Except.error ("HTTP error! status: " ++ toString (503 : Nat)) :=
  ⟨c1_amended_execute_captures.1 "get_stock_price" (some "fetch failed"),
   c1_amended_execute_captures.2.2 ⟨false, 503, ⟨none, ""⟩⟩ rfl⟩

/-- C6 counterexample: in the week4 `CLIChatbot.handleUserInput`, a
model response with tool calls and no text is answered by surfacing the
raw first tool result output as the final answer, after a single model
call — there is no mandatory extra round trip. -/
theorem c6_counterexample :
    (cliHandleUserInput c6Oracle [] "what is 2 + 2?").displayed = "2 + 2 = 4" ∧
    (cliHandleUserInput c6Oracle [] "what is 2 + 2?").modelCalls = 1 ∧
    (cliHandleUserInput c6Oracle [] "what is 2 + 2?").displayed
      = (c6R1.toolResults.getD 0 ⟨"", ""⟩).output :=
  ⟨rfl, rfl, rfl⟩

/-- C6 amended: only the MCP-enabled chatbot implements the mandatory
synthesis round trip: when the first response carries tool calls and no
non-whitespace text, `MCPCLIChatbot.handleUserInput` appends the tool
results as a synthetic user turn, queries the model a second time, and
surfaces that second response's text; the week4 CLI chatbot instead
surfaces the bare first tool result with no extra round trip. -/
theorem c6_amended_synthesis_round_trip
    (oracle : Nat → Except String ModelResponse) (msgs : List Msg) (input : String)
    (r1 r2 : ModelResponse) (h0 : oracle 0 = .ok r1)
    (hcalls : 0 < r1.toolCalls.length) (htext : jsTrim r1.text = "")
    (h1 : oracle 1 = .ok r2) :
    mcpHandleUserInput oracle msgs input
      = ⟨msgs ++ [Msg.user input, Msg.assistant (jsOrS r1.text ""),
          Msg.user (synthesisPrompt r1), Msg.assistant r2.text],
         jsOrS r2.text "No response generated", 2⟩ := by
  simp [mcpHandleUserInput, h0, h1, hcalls, htext]

/-- C6 witness: a concrete turn in the MCP chatbot where the first
response is tool-calls-only and the surfaced answer is the second
response's synthesis text. -/
theorem c6_witness :
    mcpHandleUserInput c6SynthOracle [] "what is 2 + 2?"
      = ⟨[] ++ [Msg.user "what is 2 + 2?", Msg.assistant (jsOrS c6R1.text ""),
          Msg.user (synthesisPrompt c6R1), Msg.assistant c6R2.text],
         jsOrS c6R2.text "No response generated", 2⟩ :=
  c6_amended_synthesis_round_trip c6SynthOracle [] "what is 2 + 2?" c6R1 c6R2 rfl
    (by decide) rfl rfl

/-- C7 counterexample: when the language-model boundary fails on the
synthesis (second) call of a turn, the catch pops only the synthetic
tool-results message: the triggering user turn and the empty assistant
turn remain, so the transcript is not restored to its pre-turn state
and a retry would duplicate the user turn. -/
theorem c7_counterexample :
    (mcpHandleUserInput c7Oracle [] "what is 2 + 2?").messages
        = [Msg.user "what is 2 + 2?", Msg.assistant ""] ∧
    (mcpHandleUserInput c7Oracle [] "what is 2 + 2?").messages ≠ [] := by
  refine ⟨rfl, ?_⟩
  rw [show (mcpHandleUserInput c7Oracle [] "what is 2 + 2?").messages
      = [Msg.user "what is 2 + 2?", Msg.assistant ""] from rfl]
  simp

/-- C7 amended: the pop-on-error recovery restores the pre-turn
transcript only when the first model call of the turn fails (then the
popped message is exactly the triggering user turn, and the failure is
surfaced as an `Error: ...` message); when the synthesis call fails,
only the last synthetic message is popped and the triggering user turn
remains in the transcript. -/
theorem c7_amended_pop_semantics :
    (∀ (oracle : Nat → Except String ModelResponse) (msgs : List Msg) (input e : String),
      oracle 0 = .error e →
      (mcpHandleUserInput oracle msgs input).messages = msgs ∧
      (mcpHandleUserInput oracle msgs input).displayed = "Error: " ++ e) ∧
    (∀ (oracle : Nat → Except String ModelResponse) (msgs : List Msg) (input : String)
        (r1 : ModelResponse) (e : String),
      oracle 0 = .ok r1 → 0 < r1.toolCalls.length → jsTrim r1.text = "" →
      oracle 1 = .error e →
      (mcpHandleUserInput oracle msgs input).messages
        = msgs ++ [Msg.user input, Msg.assistant (jsOrS r1.text "")]) := by
  constructor
  · intro oracle msgs input e h
    constructor
    · simp [mcpHandleUserInput, h, listPop]
    · simp [mcpHandleUserInput, h]
  · intro oracle msgs input r1 e h0 hcalls htext h1
    simp [mcpHandleUserInput, h0, h1, hcalls, htext, listPop]

/-- C7 witness: a first-call failure at a concrete two-message
transcript leaves the transcript unchanged and surfaces the error. -/
theorem c7_witness :
    (mcpHandleUserInput c7FailOracle [Msg.user "earlier", Msg.assistant "earlier answer"]
        "hi").messages = [Msg.user "earlier", Msg.assistant "earlier answer"] ∧
    (mcpHandleUserInput c7FailOracle [Msg.user "earlier", Msg.assistant "earlier answer"]
        "hi").displayed = "Error: " ++ "ECONNREFUSED" :=
  c7_amended_pop_semantics.1 c7FailOracle
    [Msg.user "earlier", Msg.assistant "earlier answer"] "hi" "ECONNREFUSED" rfl

/-- C8 counterexample: pushing an eleventh message compacts the
transcript to an eight-message suffix that contains no synthetic
summary turn — the evicted turns are dropped from `messages`, and the
keyword summary is stored only in the separate `conversationContext`
field, so the older turns are not replaced in the transcript by a
summary turn. -/
theorem c8_counterexample :
    (addMessage c8Start ⟨"user", "tell me about stocks"⟩).messages
        = [⟨"assistant", "m4"⟩, ⟨"user", "m5"⟩, ⟨"assistant", "m6"⟩, ⟨"user", "m7"⟩,
           ⟨"assistant", "m8"⟩, ⟨"user", "m9"⟩, ⟨"assistant", "m10"⟩,
           ⟨"user", "tell me about stocks"⟩] ∧
    ((addMessage c8Start ⟨"user", "tell me about stocks"⟩).messages.all
        (fun m => !(strIncludes m.content "Previous conversation covered"))) = true ∧
    (addMessage c8Start ⟨"user", "tell me about stocks"⟩).conversationContext
        = "Previous conversation covered: " :=
  ⟨rfl, rfl, rfl⟩

/-- C8 amended: when a push makes the count exceed 10, the transcript
keeps exactly the most-recent 8 turns byte-identically (the suffix of
the pushed list), while every older turn is dropped from the transcript
and the keyword-derived summary of the dropped turns is stored in the
side field `conversationContext`, not as a transcript turn. -/
theorem c8_amended_compaction (st : AgentState) (m : FinMsg)
    (h : 10 < st.messages.length + 1) :
    (addMessage st m).messages
        = (st.messages ++ [m]).drop (st.messages.length + 1 - 8) ∧
    (addMessage st m).messages.length = 8 ∧
    (addMessage st m).conversationContext = summarizeOldMessages (st.messages ++ [m]) := by
  have hlen : (st.messages ++ [m]).length = st.messages.length + 1 := by simp
  have hcond : 10 < (st.messages ++ [m]).length := by omega
  unfold addMessage
  rw [if_pos hcond]
  refine ⟨by rw [hlen], ?_, rfl⟩
  simp only [List.length_drop, hlen]
  omega

/-- C8 witness: the compaction shape at the concrete ten-message
state. -/
theorem c8_witness :
    (addMessage c8Start c8NewMsg).messages
        = (c8Start.messages ++ [c8NewMsg]).drop (c8Start.messages.length + 1 - 8) ∧
    (addMessage c8Start c8NewMsg).messages.length = 8 ∧
    (addMessage c8Start c8NewMsg).conversationContext
        = summarizeOldMessages (c8Start.messages ++ [c8NewMsg]) :=
  c8_amended_compaction c8Start c8NewMsg (by decide)

/-- C9 counterexample: the transcript content derived from a provider
result is not byte-identical to it.  A result containing a non-text
chunk folds to the same transcript string as the result without that
chunk (the chunk is filtered out by type and the text chunks are
re-encoded joined by newlines), so distinct provider results become
indistinguishable in the transcript. -/
theorem c9_counterexample :
    mcpContentToString (some c9ContentA) = "alpha\nbeta" ∧
    mcpContentToString (some c9ContentA) = mcpContentToString (some c9ContentB) ∧
    c9ContentA ≠ c9ContentB :=
  ⟨rfl, rfl, by decide⟩

/-- C9 amended: the tool turn recorded in the transcript is a lossy
projection of the provider's ToolResult: only the chunks whose type is
`text` survive, in provider order, their text fields joined with
newlines; an absent or empty content list becomes a fixed placeholder
string; and inserting a non-text chunk anywhere in a (non-trivial)
content list does not change the recorded string at all. -/
theorem c9_amended_lossy_projection :
    (∀ content : List ContentItem, 0 < content.length →
      mcpContentToString (some content)
        = String.intercalate "\n"
            ((content.filter (fun i => i.itemType == "text")).map (fun i => i.text))) ∧
    mcpContentToString none = "Tool executed successfully but returned no content." ∧
    mcpContentToString (some [])
        = "Tool executed successfully but returned no content." ∧
    (∀ (l1 l2 : List ContentItem) (extra : ContentItem), extra.itemType ≠ "text" →
      l1 ++ l2 ≠ [] →
      mcpContentToString (some (l1 ++ extra :: l2))
        = mcpContentToString (some (l1 ++ l2))) := by
  refine ⟨?_, rfl, rfl, ?_⟩
  · intro content h
    simp [mcpContentToString, h]
  · intro l1 l2 extra hextra hne
    have hx : (extra.itemType == "text") = false := by
      simpa using hextra
    have h1 : 0 < (l1 ++ extra :: l2).length := by simp
    have h2 : 0 < l1.length ∨ 0 < l2.length := by
      cases hl : l1 ++ l2 with
      | nil => exact absurd hl hne
      | cons a as =>
        have : 0 < (l1 ++ l2).length := by simp [hl]
        simpa using this
    simp [mcpContentToString, h1, h2, List.filter_append, List.filter_cons, hx]

/-- C9 witness: the projection equation at the concrete mixed-content
result, and chunk-dropping at a concrete insertion. -/
theorem c9_witness :
    mcpContentToString (some c9ContentA)
        = String.intercalate "\n"
            ((c9ContentA.filter (fun i => i.itemType == "text")).map (fun i => i.text)) ∧
    mcpContentToString (some ([⟨"text", "alpha"⟩] ++ (⟨"image", "base64data"⟩ : ContentItem)
          :: [⟨"text", "beta"⟩]))
        = mcpContentToString (some ([⟨"text", "alpha"⟩] ++ [⟨"text", "beta"⟩])) :=
  ⟨c9_amended_lossy_projection.1 c9ContentA (by decide),
   c9_amended_lossy_projection.2.2.2 [⟨"text", "alpha"⟩] [⟨"text", "beta"⟩]
      ⟨"image", "base64data"⟩ (by decide) (by decide)⟩

/-- C10: the `calculate` tool evaluates its expression only when every
character is a digit, one of `+ - * / ( ) .`, or whitespace: an
expression containing any other character is rejected with the
`Invalid characters in expression` error string before the dynamic
evaluator is ever invoked (second component `false`), the evaluator
runs only on expressions passing the character check, and the tool
always returns a string rather than throwing. -/
theorem c10_calculate_guard (evalFn : String → Except (Option String) String)
    (expression : String) :
    ((∃ c ∈ expression.toList, allowedChar c = false) →
      calculate evalFn expression
        = (calcError expression "Invalid characters in expression", false)) ∧
    ((calculate evalFn expression).2 = true → expression.toList.all allowedChar = true) ∧
    (∃ out : String × Bool, calculate evalFn expression = out) := by
  refine ⟨?_, ?_, ⟨_, rfl⟩⟩
  · rintro ⟨c, hc, hbad⟩
    have hall : expression.toList.all allowedChar = false :=
      List.all_eq_false.mpr ⟨c, hc, by simp [hbad]⟩
    have hE : exprAllowed expression = false := by
      unfold exprAllowed
      rw [hall, Bool.and_false]
    simp [calculate, hE]
  · intro h
    cases hE : exprAllowed expression with
    | false => simp [calculate, hE] at h
    | true =>
      have := hE
      simp only [exprAllowed, Bool.and_eq_true] at this
      exact this.2

/-- C10 witness: a concrete injection attempt contains a disallowed
character and is rejected without invoking the evaluator. -/
theorem c10_witness :
    (∃ c ∈ ("2 + 2; process.exit(1)").toList, allowedChar c = false) ∧
    calculate (fun _ => Except.ok "4") "2 + 2; process.exit(1)"
      = (calcError "2 + 2; process.exit(1)" "Invalid characters in expression", false) :=
  ⟨⟨';', by decide, by decide⟩,
   (c10_calculate_guard (fun _ => Except.ok "4") "2 + 2; process.exit(1)").1
     ⟨';', by decide, by decide⟩⟩
